import Mathlib

/-!
Formal model of the chat session controller of the north-peak-ui repository.

The single stateful unit of the repository is the chat session hook in
src/hooks/useChat.ts.  It owns the ordered message list, the loading and
error flags, the last-debug snapshot and the session id, persists the
message list to browser local storage, and mediates between UI input and
the REST transport in src/lib/api.ts.

This file gives a shallow embedding of that hook:

* the data model (ChatMessage, DebugInfo, transport response shapes) is
  translated from src/types/index.ts;
* browser local storage is modelled as an association list with the
  getItem/setItem/removeItem semantics the hook relies on;
* JavaScript Date values are modelled as milliseconds since the epoch
  (JS dates have exactly millisecond precision); Date.prototype.toISOString
  and parsing an ISO string back with the Date constructor are modelled at
  the level of the calendar fields the ISO-8601 string carries, using the
  standard Gregorian civil-from-days / days-from-civil algorithm;
* each async operation of the hook (sendUserMessage, resetSession,
  startNewChat) is split into its synchronous phases, with the outcome of
  every awaited transport call passed in as an explicit parameter, and the
  localStorage-mirroring React effect modelled as an explicit state
  transformer applied after every commit in which the message list changed.
-/

/-! ## Data model (src/types/index.ts) -/

/-- Role of a chat message: the `role: "user" | "assistant"` field of
`ChatMessage` in src/types/index.ts. -/
inductive ChatRole
  | user
  | assistant
  deriving DecidableEq, Repr

/-- Debug telemetry returned by the test-message endpoint
(`DebugInfo` in src/types/index.ts).  Numbers are modelled as rationals;
the controller never computes with them, it only passes them through. -/
structure DebugInfo where
  route_name : Option String
  route_confidence : Option ℚ
  intent : Option String := none
  tools_called : List String
  goal_achieved : Bool
  goal_type : Option String
  processing_time_ms : Option ℚ
  deriving DecidableEq, Repr

/-- A chat message held by the controller (`ChatMessage` in
src/types/index.ts).  `timestamp` is a JS `Date`, modelled as milliseconds
since the Unix epoch.  The optional TS fields `isLoading?: boolean` and
`debug?: DebugInfo` are modelled with `false` / `none` for "absent",
which is observationally equivalent under JS truthiness. -/
structure ChatMessage where
  id : String
  role : ChatRole
  content : String
  timestamp : Nat
  isLoading : Bool := false
  debug : Option DebugInfo := none
  deriving DecidableEq, Repr

/-- Response of the test-session message endpoint (`TestMessageResponse`
in src/types/index.ts).  `reply: string | null` is an `Option String`. -/
structure TestMessageResponse where
  success : Bool
  reply : Option String
  should_escalate : Bool
  escalation_reason : Option String
  debug : DebugInfo
  interaction_id : Option String
  deriving DecidableEq, Repr

/-- Response of the real-contact message endpoint (`MessageResponse` in
src/types/index.ts).  It carries no `debug` object. -/
structure MessageResponse where
  success : Bool
  route_detected : String
  confidence : ℚ
  reply : Option String
  should_escalate : Bool
  escalation_reason : Option String
  actions_taken : List String
  deriving DecidableEq, Repr

/-- A test session as returned by the create-session endpoint
(`TestSession` in src/types/index.ts); only `session_id` is consumed by
the hook. -/
structure TestSession where
  session_id : String
  location_id : String
  channel : String
  test_contact_name : String
  deriving DecidableEq, Repr

/-- JS truthiness of a `string | undefined | null` value: `undefined`,
`null` and the empty string are falsy. -/
def optStrTruthy : Option String → Bool
  | none => false
  | some s => !(s == "")

/-- A value thrown by a failing transport call: either a JS `Error`
carrying a message, or some non-`Error` value.  The hook only ever looks
at `err instanceof Error ? err.message : fallback`. -/
inductive JsError
  | jsErr (message : String)
  | nonErrorValue
  deriving DecidableEq, Repr

/-- The string the hook derives from a caught value:
`err instanceof Error ? err.message : fallback`. -/
def JsError.displayMessage (e : JsError) (fallback : String) : String :=
  match e with
  | .jsErr msg => msg
  | .nonErrorValue => fallback

/-! ## JS dates and the ISO-8601 codec

`serializeMessages` stores each timestamp as `m.timestamp.toISOString()`
and `deserializeMessages` reconstitutes it with `new Date(string)`.
A JS `Date` is an integer count of milliseconds since the epoch, and an
ISO-8601 string produced by `toISOString` carries exactly the fields
year/month/day/hour/minute/second/millisecond, so the codec is modelled
as the conversion between a millisecond count and those seven fields.
The date part uses the standard Gregorian algorithm (the one underlying
every `toISOString` implementation): an era of 400 years = 146097 days,
with the year internally starting on March 1. -/

/-- Convert a day count since 1970-01-01 to a Gregorian (year, month, day). -/
def civilFromDays (z : Nat) : Nat × Nat × Nat :=
  let z' := z + 719468
  let era := z' / 146097
  let doe := z' % 146097
  let yoe := (doe - doe / 1460 + doe / 36524 - doe / 146096) / 365
  let y := yoe + era * 400
  let doy := doe - (365 * yoe + yoe / 4 - yoe / 100)
  let mp := (5 * doy + 2) / 153
  let d := doy - (153 * mp + 2) / 5 + 1
  let m := if mp < 10 then mp + 3 else mp - 9
  (if m ≤ 2 then y + 1 else y, m, d)

/-- Convert a Gregorian (year, month, day) on or after 1970-01-01 back to
a day count since 1970-01-01. -/
def daysFromCivil (y m d : Nat) : Nat :=
  let y' := if m ≤ 2 then y - 1 else y
  let era := y' / 400
  let yoe := y' - era * 400
  let doy := (153 * (if m > 2 then m - 3 else m + 9) + 2) / 5 + d - 1
  let doe := yoe * 365 + yoe / 4 - yoe / 100 + doy
  era * 146097 + doe - 719468

/-- The seven calendar fields carried by an ISO-8601 timestamp string of
the form YYYY-MM-DDTHH:MM:SS.mmmZ, as produced by `Date.toISOString`.
The finest field is the millisecond: this is the serialization
granularity of the format. -/
structure ISODate where
  year : Nat
  month : Nat
  day : Nat
  hour : Nat
  minute : Nat
  second : Nat
  millis : Nat
  deriving DecidableEq, Repr

/-- Model of `Date.prototype.toISOString`: split a millisecond count since
the epoch into the calendar fields of the ISO-8601 string. -/
def msToISO (t : Nat) : ISODate :=
  let days := t / 86400000
  let rem := t % 86400000
  let ymd := civilFromDays days
  { year := ymd.1, month := ymd.2.1, day := ymd.2.2,
    hour := rem / 3600000, minute := rem % 3600000 / 60000,
    second := rem % 60000 / 1000, millis := rem % 1000 }

/-- Model of `new Date(isoString)`: recombine the calendar fields of an
ISO-8601 string into a millisecond count since the epoch. -/
def isoToMs (iso : ISODate) : Nat :=
  daysFromCivil iso.year iso.month iso.day * 86400000
    + iso.hour * 3600000 + iso.minute * 60000 + iso.second * 1000 + iso.millis

/-! ## Message serialization (src/hooks/useChat.ts, serializeMessages /
deserializeMessages)

`serializeMessages` maps each message to a JSON object that keeps every
field unchanged except `timestamp`, which becomes the ISO string; the
array is then stringified.  `deserializeMessages` parses the JSON and maps
`timestamp` back through the `Date` constructor, spreading the remaining
fields unchanged.  JSON stringify/parse round-trips the structured values
exactly, so it is modelled as the identity on the structured form and the
serialized blob is the list of stored records. -/

/-- The shape of one entry of the persisted JSON array: every field of
`ChatMessage` unchanged except the timestamp, which is the ISO-8601
string, modelled by its fields. -/
structure StoredChatMessage where
  id : String
  role : ChatRole
  content : String
  timestamp : ISODate
  isLoading : Bool
  debug : Option DebugInfo
  deriving DecidableEq, Repr

/-- serializeMessages from src/hooks/useChat.ts: spread each message and
replace `timestamp` by `m.timestamp.toISOString()`. -/
def serializeMessages (messages : List ChatMessage) : List StoredChatMessage :=
  messages.map fun m =>
    { id := m.id, role := m.role, content := m.content,
      timestamp := msToISO m.timestamp, isLoading := m.isLoading,
      debug := m.debug }

/-- deserializeMessages from src/hooks/useChat.ts (the non-throwing path):
spread each stored record and replace `timestamp` by
`new Date(m.timestamp)`. -/
def deserializeMessages (stored : List StoredChatMessage) : List ChatMessage :=
  stored.map fun m =>
    { id := m.id, role := m.role, content := m.content,
      timestamp := isoToMs m.timestamp, isLoading := m.isLoading,
      debug := m.debug }

/-! ## Local storage (Persistence Adapter) -/

/-- A value held in browser local storage by this hook: either the
serialized message array of a session, or the current session id of a
location. -/
inductive StoredValue
  | messagesBlob (stored : List StoredChatMessage)
  | sessionRef (sessionId : String)
  deriving DecidableEq, Repr

/-- Browser local storage, modelled as an association list keyed by the
storage key; the most recent binding for a key shadows older ones. -/
abbrev Storage := List (String × StoredValue)

/-- localStorage.getItem. -/
def Storage.getItem (s : Storage) (k : String) : Option StoredValue :=
  (s.find? fun e => e.1 == k).map (fun e => e.2)

/-- localStorage.setItem. -/
def Storage.setItem (s : Storage) (k : String) (v : StoredValue) : Storage :=
  (k, v) :: s

/-- localStorage.removeItem. -/
def Storage.removeItem (s : Storage) (k : String) : Storage :=
  s.filter fun e => !(e.1 == k)

-- localStorage keys (src/hooks/useChat.ts, lines 7-9).  The source names
-- them STORAGE_KEY_PREFIX and STORAGE_SESSION_KEY.
def STORAGE_KEY_BASE : String := "north_peak_chat_"

def STORAGE_SESSION_KEY : String := "north_peak_current_session"

/-- Key of the persisted message blob of a session:
STORAGE_KEY_PREFIX + sessionId. -/
def messagesKey (sessionId : String) : String :=
  STORAGE_KEY_BASE ++ sessionId

/-- Key of the persisted current-session id of a location:
STORAGE_SESSION_KEY + "_" + locationId. -/
def sessionKey (locationId : String) : String :=
  STORAGE_SESSION_KEY ++ "_" ++ locationId

/-! ## Controller state and options (src/hooks/useChat.ts) -/

/-- The props of the useChat hook (`UseChatOptions`).  Optional TS string
fields are `Option String`; `testMode` and `createTestContact` default to
`false` as in the source. -/
structure UseChatOptions where
  locationId : String
  contactId : Option String := none
  testMode : Bool := false
  initialSessionId : Option String := none
  userEmail : Option String := none
  userName : Option String := none
  existingContactId : Option String := none
  existingGhlContactId : Option String := none
  createTestContact : Bool := false
  deriving DecidableEq, Repr

/-- The mutable state owned by the hook: the five useState cells the
presentation layer consumes, plus the browser storage the hook writes
through.  (`isInitializing` and the restore-on-mount effect only matter
for initialization, which none of the modelled operations touch.) -/
structure ChatState where
  messages : List ChatMessage
  isLoading : Bool
  error : Option String
  lastDebug : Option DebugInfo
  sessionId : Option String
  storage : Storage
  deriving DecidableEq, Repr

/-- One REST call made through src/lib/api.ts.  An operation's list of
emitted calls records exactly which network requests it issued. -/
inductive TransportCall
  | sendTest (sessionId message : String)
  | sendContact (contactId locationId message : String)
  | resetTest (sessionId : String)
  | createSession (locationId : String)
  deriving DecidableEq, Repr

/-- The localStorage-mirroring effect (src/hooks/useChat.ts lines
126-131): after every commit in which `messages` changed, if the session
id is truthy and the list non-empty, write the serialized list under the
session's messages key. -/
def persistEffect (st : ChatState) : ChatState :=
  if optStrTruthy st.sessionId ∧ st.messages.length > 0 then
    { st with
      storage := st.storage.setItem (messagesKey (st.sessionId.getD ""))
        (StoredValue.messagesBlob (serializeMessages st.messages)) }
  else st

/-! ## sendUserMessage (src/hooks/useChat.ts lines 133-226)

The async function is split at its single await.  Phase 1
(`sendUserMessageStart`) is everything up to and including issuing the
transport call: the three validation guards, clearing the error, setting
the loading flag, and the optimistic append of the user message and the
loading placeholder.  Phase 2 (`sendUserMessageResolve`) is the
try/catch/finally continuation, applied to whatever the state is when the
call settles.  The four clock reads (`Date.now()` for each id and
`new Date()` for each timestamp) are the parameters t1-t4. -/

/-- Model of JavaScript String.prototype.trim: drop whitespace from both
ends (executable on the character list). -/
def jsTrim (s : String) : String :=
  String.mk (((s.data.dropWhile Char.isWhitespace).reverse.dropWhile
    Char.isWhitespace).reverse)

/-- The user message appended by an accepted send: id `user-` +
`Date.now()`, trimmed content, fresh timestamp. -/
def mkUserMessage (content : String) (t1 t2 : Nat) : ChatMessage :=
  { id := "user-" ++ toString t1, role := ChatRole.user,
    content := jsTrim content, timestamp := t2 }

/-- The loading placeholder appended by an accepted send: id `assistant-` +
`Date.now()`, empty content, `isLoading: true`. -/
def mkLoadingMessage (t3 t4 : Nat) : ChatMessage :=
  { id := "assistant-" ++ toString t3, role := ChatRole.assistant,
    content := "", timestamp := t4, isLoading := true }

/-- Result of phase 1 of sendUserMessage: either the call returned during
validation (no transport call is issued), or it reached the await with the
optimistic state committed, one transport call issued, and the id of the
loading placeholder captured by the continuation. -/
inductive SendStart
  | rejected (st : ChatState)
  | accepted (st : ChatState) (call : TransportCall) (loadingId : String)
  deriving DecidableEq, Repr

/-- Phase 1 of sendUserMessage (lines 133-165 plus the choice of endpoint
at lines 168/190).  Guards in source order: blank trimmed text or falsy
locationId return silently; test mode without a truthy session id sets the
error "Test session not initialized"; non-test mode without a truthy
contact id sets the error "Contact ID required for non-test mode".
Otherwise the error is cleared, the loading flag set, the two messages
appended, and the transport call issued with the untrimmed text. -/
def sendUserMessageStart (o : UseChatOptions) (content : String)
    (t1 t2 t3 t4 : Nat) (st : ChatState) : SendStart :=
  if jsTrim content = "" ∨ o.locationId = "" then
    SendStart.rejected st
  else if o.testMode ∧ ¬ optStrTruthy st.sessionId then
    SendStart.rejected { st with error := some ("Test session not initialized") }
  else if ¬ o.testMode ∧ ¬ optStrTruthy o.contactId then
    SendStart.rejected { st with error := some ("Contact ID required for non-test mode") }
  else
    let loadingMessage := mkLoadingMessage t3 t4
    let st' := { st with
      error := none
      isLoading := true
      messages := st.messages ++ [mkUserMessage content t1 t2, loadingMessage] }
    if o.testMode then
      SendStart.accepted st' (TransportCall.sendTest (st.sessionId.getD "") content)
        loadingMessage.id
    else
      SendStart.accepted st' (TransportCall.sendContact (o.contactId.getD "") o.locationId content)
        loadingMessage.id

/-- How the awaited transport call of an accepted send settles: the test
endpoint resolves with a `TestMessageResponse`, the contact endpoint with
a `MessageResponse`, or either throws. -/
inductive SendOutcome
  | testSuccess (response : TestMessageResponse)
  | contactSuccess (response : MessageResponse)
  | failure (e : JsError)
  deriving DecidableEq, Repr

/-- The generic acknowledgement used when `response.reply` is falsy:
`response.reply || "I understand. Let me help you with that."`. -/
def replyOrAck : Option String → String
  | some r => if r = "" then "I understand. Let me help you with that." else r
  | none => "I understand. Let me help you with that."

/-- How one entry of the message list is rewritten when the send settles:
the entry whose id matches the captured loading-placeholder id is replaced
in place, every other entry is untouched. -/
def resolveEntry (loadingId : String) (outcome : SendOutcome)
    (msg : ChatMessage) : ChatMessage :=
  if msg.id = loadingId then
    match outcome with
    | SendOutcome.testSuccess r =>
        { msg with
          content := replyOrAck r.reply
          isLoading := false
          debug := some r.debug }
    | SendOutcome.contactSuccess r =>
        { msg with
          content := replyOrAck r.reply
          isLoading := false }
    | SendOutcome.failure _ =>
        { msg with
          content := "Sorry, I encountered an error. Please try again."
          isLoading := false }
  else msg

/-- Phase 2 of sendUserMessage (the try/catch/finally, lines 167-223):
on test success store the debug snapshot and replace the placeholder by
id; on contact success replace the placeholder by id; on failure set the
error to the thrown error's message (or "Something went wrong") and
replace the placeholder by the apology string.  The caught error is never
rethrown: every outcome yields a state.  The finally clause clears the
loading flag. -/
def sendUserMessageResolve (loadingId : String) (outcome : SendOutcome)
    (st : ChatState) : ChatState :=
  let st1 :=
    match outcome with
    | SendOutcome.testSuccess r => { st with lastDebug := some r.debug }
    | SendOutcome.contactSuccess _ => st
    | SendOutcome.failure e =>
        { st with error := some (e.displayMessage ("Something went wrong")) }
  let st2 := { st1 with messages := st1.messages.map (resolveEntry loadingId outcome) }
  { st2 with isLoading := false }

/-- The state after the optimistic commit of a send and the storage effect
that follows it (the state the UI shows, and storage holds, while the
transport call is in flight).  On a rejected call no commit with changed
messages happens, so the effect does not fire. -/
def sendMidState (o : UseChatOptions) (content : String)
    (t1 t2 t3 t4 : Nat) (st : ChatState) : ChatState :=
  match sendUserMessageStart o content t1 t2 t3 t4 st with
  | SendStart.rejected st' => st'
  | SendStart.accepted st' _ _ => persistEffect st'

/-- The state after the send has fully settled: phase 1, the storage
effect, phase 2 on the given outcome, and the storage effect again. -/
def sendFinalState (o : UseChatOptions) (content : String)
    (t1 t2 t3 t4 : Nat) (outcome : SendOutcome) (st : ChatState) : ChatState :=
  match sendUserMessageStart o content t1 t2 t3 t4 st with
  | SendStart.rejected st' => st'
  | SendStart.accepted st' _ lid =>
      persistEffect (sendUserMessageResolve lid outcome (persistEffect st'))

/-- The transport calls issued by one sendUserMessage invocation. -/
def sendCalls (o : UseChatOptions) (content : String)
    (t1 t2 t3 t4 : Nat) (st : ChatState) : List TransportCall :=
  match sendUserMessageStart o content t1 t2 t3 t4 st with
  | SendStart.rejected _ => []
  | SendStart.accepted _ call _ => [call]

/-! ## resetSession (src/hooks/useChat.ts lines 234-248) -/

/-- resetSession: a no-op unless test mode is on and a session id is
truthy (no transport call is issued then).  Otherwise it awaits the reset
endpoint; on success it clears messages, error and last-debug and removes
the session's persisted blob; on failure it only sets the error to the
thrown error's message (or "Failed to reset session").  The session id is
never written.  Returns the settled state and the calls issued. -/
def resetSession (o : UseChatOptions) (outcome : Except JsError Unit)
    (st : ChatState) : ChatState × List TransportCall :=
  if ¬ o.testMode ∨ ¬ optStrTruthy st.sessionId then (st, [])
  else
    let sid := st.sessionId.getD ""
    match outcome with
    | Except.ok _ =>
        ({ st with
           messages := []
           error := none
           lastDebug := none
           storage := st.storage.removeItem (messagesKey sid) },
         [TransportCall.resetTest sid])
    | Except.error e =>
        ({ st with error := some (e.displayMessage ("Failed to reset session")) },
         [TransportCall.resetTest sid])

/-! ## startNewChat (src/hooks/useChat.ts lines 251-296) -/

/-- startNewChat: a no-op unless test mode is on and locationId is truthy.
Otherwise: set loading, clear the error; if a session id is truthy, remove
that session's persisted blob and await the reset endpoint inside its own
try with an empty catch — `resetOutcome` is deliberately unused by the
body, which is exactly the swallowing of cleanup errors; then clear
messages, last-debug and the session id; then await session creation: on
success store the new id in state and persist it under the location's
session key, on failure set the error to the thrown error's message (or
"Failed to start new chat").  The finally clause clears the loading flag.
Returns the settled state and the calls issued. -/
def startNewChat (o : UseChatOptions) (resetOutcome : Except JsError Unit)
    (createOutcome : Except JsError TestSession) (st : ChatState) :
    ChatState × List TransportCall :=
  if ¬ o.testMode ∨ o.locationId = "" then (st, [])
  else
    let st0 := { st with isLoading := true, error := none }
    let cleaned :=
      if optStrTruthy st.sessionId then
        let sid := st.sessionId.getD ""
        ({ st0 with storage := st0.storage.removeItem (messagesKey sid) },
         [TransportCall.resetTest sid])
      else (st0, ([] : List TransportCall))
    let st2 := { cleaned.1 with
      messages := []
      lastDebug := none
      sessionId := none }
    match createOutcome with
    | Except.ok session =>
        ({ st2 with
           sessionId := some session.session_id
           isLoading := false
           storage := st2.storage.setItem (sessionKey o.locationId)
             (StoredValue.sessionRef session.session_id) },
         cleaned.2 ++ [TransportCall.createSession o.locationId])
    | Except.error e =>
        ({ st2 with
           error := some (e.displayMessage ("Failed to start new chat"))
           isLoading := false },
         cleaned.2 ++ [TransportCall.createSession o.locationId])

/-- clearMessages (lines 228-232): local-only reset of messages, error
and last-debug. -/
def clearMessages (st : ChatState) : ChatState :=
  { st with messages := [], error := none, lastDebug := none }

/-! ## Observations and concrete fixtures -/

/-- Whether the persisted blob of the given session currently contains a
message whose pending flag (`isLoading`) is true. -/
def storedBlobHasPending (st : ChatState) (sessionId : String) : Bool :=
  match st.storage.getItem (messagesKey sessionId) with
  | some (StoredValue.messagesBlob stored) => stored.any (fun m => m.isLoading)
  | _ => false

/-- A concrete debug snapshot (the one of spec Scenario C). -/
def exDebug : DebugInfo :=
  { route_name := some ("faq"), route_confidence := some ((92 : ℚ) / 100),
    tools_called := [], goal_achieved := false, goal_type := none,
    processing_time_ms := none }

/-- Concrete test-mode options. -/
def exOpts : UseChatOptions := { locationId := "loc-1", testMode := true }

/-- Concrete non-test options without a contact id. -/
def exOptsPlain : UseChatOptions := { locationId := "loc-1" }

/-- Concrete non-test options with a contact id. -/
def exOptsContact : UseChatOptions :=
  { locationId := "loc-1", contactId := some ("contact-1") }

/-- A settled user message. -/
def exMsgUser : ChatMessage :=
  { id := "user-1", role := ChatRole.user, content := "first", timestamp := 1 }

/-- A pending assistant placeholder. -/
def exMsgPending : ChatMessage :=
  { id := "assistant-2", role := ChatRole.assistant, content := "",
    timestamp := 2, isLoading := true }

/-- A state with an exchange still in flight: the loarding flag is set and
the placeholder unresolved. -/
def exPending : ChatState :=
  { messages := [exMsgUser, exMsgPending], isLoading := true, error := none,
    lastDebug := none, sessionId := some ("sess-1"), storage := [] }

/-- A quiescent test-mode state with a session and no messages. -/
def exIdle : ChatState :=
  { messages := [], isLoading := false, error := none, lastDebug := none,
    sessionId := some ("sess-1"), storage := [] }

/-- A test-mode state before any session id has been obtained. -/
def exNoSession : ChatState :=
  { messages := [], isLoading := false, error := none, lastDebug := none,
    sessionId := none, storage := [] }

/-- The transport response of spec Scenario C. -/
def exResponse : TestMessageResponse :=
  { success := true, reply := some ("Hello!"), should_escalate := false,
    escalation_reason := none, debug := exDebug, interaction_id := none }

/-- A concrete contact-endpoint response. -/
def exContactResponse : MessageResponse :=
  { success := true, route_detected := "faq", confidence := (9 : ℚ) / 10,
    reply := some ("Hi there"), should_escalate := false,
    escalation_reason := none, actions_taken := [] }

/-- A concrete freshly created session. -/
def exSession : TestSession :=
  { session_id := "sess-2", location_id := "loc-1", channel := "test",
    test_contact_name := "Test User" }
example : civilFromDays 0 = (1970, 1, 1) := by decide
example : daysFromCivil 1970 1 1 = 0 := by decide

set_option maxHeartbeats 4000000 in
/-- Core bound for the year-of-era formula in `civilFromDays`: within one
400-year era the computed year-of-era is at most 399, its first day is not
after the given day, and the given day falls within 366 days of it. -/
theorem yoe_facts (doe : Nat) (h : doe ≤ 146096) :
    365 * ((doe - doe / 1460 + doe / 36524 - doe / 146096) / 365)
      + ((doe - doe / 1460 + doe / 36524 - doe / 146096) / 365) / 4
      - ((doe - doe / 1460 + doe / 36524 - doe / 146096) / 365) / 100 ≤ doe ∧
    doe ≤ 365 * ((doe - doe / 1460 + doe / 36524 - doe / 146096) / 365)
      + ((doe - doe / 1460 + doe / 36524 - doe / 146096) / 365) / 4
      - ((doe - doe / 1460 + doe / 36524 - doe / 146096) / 365) / 100 + 365 ∧
    ((doe - doe / 1460 + doe / 36524 - doe / 146096) / 365) ≤ 399 := by
  set q2 := doe / 36524 with hq2
  set q3 := doe / 146096 with hq3
  set q1 := doe / 1460 with hq1
  have h2 : q2 ≤ 4 := by omega
  have h3 : q3 ≤ 1 := by omega
  have h1 : q1 ≤ 100 := by omega
  interval_cases q1 <;> first | omega | (interval_cases q2 <;> interval_cases q3 <;> omega)

set_option maxHeartbeats 1000000 in
/-- The Gregorian conversions are mutually inverse on day counts from the
epoch onward. -/
theorem daysFromCivil_civilFromDays (z : Nat) :
    daysFromCivil (civilFromDays z).1 (civilFromDays z).2.1 (civilFromDays z).2.2 = z := by
  simp only [civilFromDays, daysFromCivil]
  set z' := z + 719468 with hz'
  set era := z' / 146097 with hera
  set doe := z' % 146097 with hdoe
  set yoe := (doe - doe / 1460 + doe / 36524 - doe / 146096) / 365 with hyoe
  set doy := doe - (365 * yoe + yoe / 4 - yoe / 100) with hdoy
  set mp := (5 * doy + 2) / 153 with hmp
  have hdoe_lt : doe ≤ 146096 := by omega
  have hz2 : z + 719468 = 146097 * era + doe := by omega
  obtain ⟨hstart_le, hdoy_le', hyoe_le⟩ := yoe_facts doe hdoe_lt
  rw [← hyoe] at hstart_le hdoy_le' hyoe_le
  have hdoyeq : 365 * yoe + yoe / 4 - yoe / 100 + doy = doe := by omega
  have hmple : 153 * mp ≤ 5 * doy + 2 ∧ 5 * doy + 2 < 153 * (mp + 1) := by omega
  have hdoy365 : doy ≤ 365 := by omega
  have hmp11 : mp ≤ 11 := by omega
  clear_value mp doy yoe doe era z'
  clear hmp hdoy hyoe hdoe hera hz' hstart_le hdoy_le' hdoe_lt
  by_cases hmp10 : mp < 10
  · have c1 : ¬(mp + 3 ≤ 2) := by omega
    have c2 : mp + 3 > 2 := by omega
    simp only [hmp10, if_true, if_pos hmp10, if_neg c1, if_pos c2, Nat.add_sub_cancel]
    rw [show (yoe + era * 400) / 400 = era by omega]
    rw [show yoe + era * 400 - era * 400 = yoe by omega]
    omega
  · have c1 : mp - 9 ≤ 2 := by omega
    have c2 : ¬(mp - 9 > 2) := by omega
    simp only [hmp10, if_false, if_neg hmp10, if_pos c1, if_neg c2, Nat.add_sub_cancel]
    rw [show (yoe + era * 400) / 400 = era by omega]
    rw [show yoe + era * 400 - era * 400 = yoe by omega]
    rw [show mp - 9 + 9 = mp by omega]
    omega

/-- The ISO-8601 timestamp codec is lossless on millisecond counts. -/
theorem isoToMs_msToISO (t : Nat) : isoToMs (msToISO t) = t := by
  simp only [msToISO, isoToMs, daysFromCivil_civilFromDays (t / 86400000)]
  omega


/-! ## Storage lemmas -/

theorem getItem_setItem_same (s : Storage) (k : String) (v : StoredValue) :
    Storage.getItem (Storage.setItem s k v) k = some v := by
  simp [Storage.getItem, Storage.setItem, List.find?]

theorem getItem_setItem_other (s : Storage) (k k' : String) (v : StoredValue)
    (h : ¬ k = k') :
    Storage.getItem (Storage.setItem s k v) k' = Storage.getItem s k' := by
  have hb : (k == k') = false := by simp [h]
  simp [Storage.getItem, Storage.setItem, List.find?, hb]

theorem getItem_removeItem (s : Storage) (k : String) :
    Storage.getItem (Storage.removeItem s k) k = none := by
  induction s with
  | nil => rfl
  | cons e s ih =>
      by_cases h : e.1 = k
      · have hb : (!(e.1 == k)) = false := by simp [h]
        simp only [Storage.removeItem, List.filter_cons, hb, Bool.false_eq_true,
          if_false]
        exact ih
      · have hb : (!(e.1 == k)) = true := by simp [h]
        have hb2 : (e.1 == k) = false := by simp [h]
        simp only [Storage.removeItem, List.filter_cons, hb, if_true]
        simp only [Storage.getItem, List.find?, hb2] at ih ⊢
        exact ih

/-- The session-id key of a location and the message-blob key of a session
never collide: the two literal key stems differ at character 12. -/
theorem sessionKey_ne_messagesKey (l s : String) : ¬ sessionKey l = messagesKey s := by
  intro h
  have h13 : (sessionKey l).data.getD 12 ' ' = (messagesKey s).data.getD 12 ' ' := by
    rw [h]
  simp only [sessionKey, messagesKey, STORAGE_SESSION_KEY, STORAGE_KEY_BASE,
    String.data_append] at h13
  rw [List.getD_append, List.getD_append] at h13
  · simp at h13
  · decide
  · decide

/-! ## Controller helper lemmas -/

theorem persistEffect_messages (st : ChatState) :
    (persistEffect st).messages = st.messages := by
  unfold persistEffect; split <;> rfl

theorem persistEffect_isLoading (st : ChatState) :
    (persistEffect st).isLoading = st.isLoading := by
  unfold persistEffect; split <;> rfl

theorem persistEffect_error (st : ChatState) :
    (persistEffect st).error = st.error := by
  unfold persistEffect; split <;> rfl

theorem persistEffect_lastDebug (st : ChatState) :
    (persistEffect st).lastDebug = st.lastDebug := by
  unfold persistEffect; split <;> rfl

theorem persistEffect_sessionId (st : ChatState) :
    (persistEffect st).sessionId = st.sessionId := by
  unfold persistEffect; split <;> rfl

theorem resolve_messages (lid : String) (outcome : SendOutcome) (st : ChatState) :
    (sendUserMessageResolve lid outcome st).messages
      = st.messages.map (resolveEntry lid outcome) := by
  cases outcome <;> rfl

theorem resolve_isLoading (lid : String) (outcome : SendOutcome) (st : ChatState) :
    (sendUserMessageResolve lid outcome st).isLoading = false := by
  cases outcome <;> rfl

theorem resolve_lastDebug_contact (lid : String) (rc : MessageResponse)
    (st : ChatState) :
    (sendUserMessageResolve lid (SendOutcome.contactSuccess rc) st).lastDebug
      = st.lastDebug := rfl

theorem resolve_sessionId (lid : String) (outcome : SendOutcome) (st : ChatState) :
    (sendUserMessageResolve lid outcome st).sessionId = st.sessionId := by
  cases outcome <;> rfl

theorem getLast?_append_pair {α : Type} (l : List α) (a b : α) :
    (l ++ [a, b]).getLast? = some b := by
  rw [show l ++ [a, b] = (l ++ [a]) ++ [b] by simp]
  exact List.getLast?_concat _

/-- Characterization of an accepted sendUserMessage phase 1: when the
trimmed text is non-blank, the location id non-blank, and the mode's
session/contact precondition holds, the call is accepted with the
optimistic state and exactly one transport call. -/
theorem sendStart_accepted (o : UseChatOptions) (content : String)
    (t1 t2 t3 t4 : Nat) (st : ChatState)
    (htext : ¬ jsTrim content = "") (hloc : ¬ o.locationId = "")
    (htest : o.testMode = true → optStrTruthy st.sessionId = true)
    (hcontact : o.testMode = false → optStrTruthy o.contactId = true) :
    sendUserMessageStart o content t1 t2 t3 t4 st =
      SendStart.accepted
        { st with
          error := none
          isLoading := true
          messages := st.messages ++ [mkUserMessage content t1 t2, mkLoadingMessage t3 t4] }
        (if o.testMode then TransportCall.sendTest (st.sessionId.getD "") content
         else TransportCall.sendContact (o.contactId.getD "") o.locationId content)
        (mkLoadingMessage t3 t4).id := by
  have h1 : ¬ (jsTrim content = "" ∨ o.locationId = "") := by tauto
  have h2 : ¬ (o.testMode = true ∧ ¬ optStrTruthy st.sessionId = true) := by
    rintro ⟨hT, hS⟩; exact hS (htest hT)
  have h3 : ¬ (¬ o.testMode = true ∧ ¬ optStrTruthy o.contactId = true) := by
    rintro ⟨hT, hC⟩
    refine hC (hcontact ?_)
    cases hb : o.testMode
    · rfl
    · exact absurd hb hT
  unfold sendUserMessageStart
  rw [if_neg h1, if_neg h2, if_neg h3]
  cases hT : o.testMode <;> simp [hT]

/-! ## Claims -/

/-- C9: serializing a message list and deserializing it reproduces the
original list exactly: same length, identical id, role and content, and
timestamps equal to the originals (a JS Date has exactly millisecond
precision, the granularity the ISO-8601 string carries, so the round trip
is lossless). -/
theorem C9_serialization_round_trip (messages : List ChatMessage) :
    deserializeMessages (serializeMessages messages) = messages := by
  induction messages with
  | nil => rfl
  | cons m ms ih =>
      unfold serializeMessages deserializeMessages at ih ⊢
      simp only [List.map_cons, List.cons.injEq]
      refine ⟨?_, ih⟩
      cases m
      simp [isoToMs_msToISO]

/-- C6: validation failures of sendMessage are rejected before any network
or storage effect.  Blank trimmed text or a falsy locationId leaves the
state untouched (messages, error, storage) with no transport call; test
mode without a truthy session id only sets the error "Test session not
initialized"; non-test mode without a truthy contact id only sets the
error "Contact ID required for non-test mode"; in all three cases the
message list, storage and session id are unchanged and no transport call
is made. -/
theorem C6_validation_rejections (o : UseChatOptions) (content : String)
    (t1 t2 t3 t4 : Nat) (st : ChatState) :
    (jsTrim content = "" ∨ o.locationId = "" →
      sendUserMessageStart o content t1 t2 t3 t4 st = SendStart.rejected st ∧
      sendMidState o content t1 t2 t3 t4 st = st ∧
      sendCalls o content t1 t2 t3 t4 st = []) ∧
    (¬ (jsTrim content = "" ∨ o.locationId = "") → o.testMode = true →
      optStrTruthy st.sessionId = false →
      sendUserMessageStart o content t1 t2 t3 t4 st
        = SendStart.rejected { st with error := some ("Test session not initialized") } ∧
      sendCalls o content t1 t2 t3 t4 st = []) ∧
    (¬ (jsTrim content = "" ∨ o.locationId = "") → o.testMode = false →
      optStrTruthy o.contactId = false →
      sendUserMessageStart o content t1 t2 t3 t4 st
        = SendStart.rejected { st with error := some ("Contact ID required for non-test mode") } ∧
      sendCalls o content t1 t2 t3 t4 st = []) := by
  refine ⟨fun h => ?_, fun hne hT hS => ?_, fun hne hF hC => ?_⟩
  · have hstart : sendUserMessageStart o content t1 t2 t3 t4 st = SendStart.rejected st := by
      unfold sendUserMessageStart
      rw [if_pos h]
    refine ⟨hstart, ?_, ?_⟩
    · unfold sendMidState
      rw [hstart]
    · unfold sendCalls
      rw [hstart]
  · have hstart : sendUserMessageStart o content t1 t2 t3 t4 st
        = SendStart.rejected { st with error := some ("Test session not initialized") } := by
      unfold sendUserMessageStart
      rw [if_neg hne, if_pos ⟨hT, by simp [hS]⟩]
    exact ⟨hstart, by unfold sendCalls; rw [hstart]⟩
  · have hcond2 : ¬ (o.testMode = true ∧ ¬ optStrTruthy st.sessionId = true) := by
      rintro ⟨hc, h'⟩
      rw [hF] at hc
      cases hc
    have hstart : sendUserMessageStart o content t1 t2 t3 t4 st
        = SendStart.rejected { st with error := some ("Contact ID required for non-test mode") } := by
      unfold sendUserMessageStart
      rw [if_neg hne, if_neg hcond2, if_pos ⟨by simp [hF], by simp [hC]⟩]
    exact ⟨hstart, by unfold sendCalls; rw [hstart]⟩

/-- C6 witness: the three rejection cases at concrete inputs — spec
Scenario A (blank text, nothing changes, no call), spec Scenario B (test
mode without a session id, only the error is set), and the non-test case
without a contact id. -/
theorem C6_witness :
    (sendUserMessageStart exOpts ("") 1 2 3 4 exIdle = SendStart.rejected exIdle ∧
     sendMidState exOpts ("") 1 2 3 4 exIdle = exIdle ∧
     sendCalls exOpts ("") 1 2 3 4 exIdle = []) ∧
    (sendUserMessageStart exOpts ("hi") 1 2 3 4 exNoSession
       = SendStart.rejected { exNoSession with error := some ("Test session not initialized") } ∧
     sendCalls exOpts ("hi") 1 2 3 4 exNoSession = []) ∧
    (sendUserMessageStart exOptsPlain ("hi") 1 2 3 4 exIdle
       = SendStart.rejected { exIdle with error := some ("Contact ID required for non-test mode") } ∧
     sendCalls exOptsPlain ("hi") 1 2 3 4 exIdle = []) :=
  ⟨(C6_validation_rejections exOpts ("") 1 2 3 4 exIdle).1 (Or.inl (by decide)),
   (C6_validation_rejections exOpts ("hi") 1 2 3 4 exNoSession).2.1 (by decide) rfl rfl,
   (C6_validation_rejections exOptsPlain ("hi") 1 2 3 4 exIdle).2.2 (by decide) rfl rfl⟩

/-- C7: resetSession is a no-op (state unchanged, no transport call)
unless test mode is on and a session id is truthy; when it runs and the
reset succeeds it empties the message list, clears the error and the
last-debug snapshot, deletes the persisted blob of that session, and
leaves the session id unchanged, so a later send reuses it. -/
theorem C7_reset_clears_but_keeps_session (o : UseChatOptions) (st : ChatState)
    (outcome : Except JsError Unit) :
    ((o.testMode = false ∨ optStrTruthy st.sessionId = false) →
      resetSession o outcome st = (st, [])) ∧
    (o.testMode = true → optStrTruthy st.sessionId = true →
      resetSession o (Except.ok ()) st
        = ({ st with
             messages := []
             error := none
             lastDebug := none
             storage := st.storage.removeItem (messagesKey (st.sessionId.getD "")) },
           [TransportCall.resetTest (st.sessionId.getD "")]) ∧
      (resetSession o (Except.ok ()) st).1.sessionId = st.sessionId ∧
      Storage.getItem (resetSession o (Except.ok ()) st).1.storage
        (messagesKey (st.sessionId.getD "")) = none) := by
  constructor
  · intro h
    unfold resetSession
    rw [if_pos ?hc]
    case hc =>
      rcases h with h | h
      · exact Or.inl (by simp [h])
      · exact Or.inr (by simp [h])
  · intro hT hS
    have heq : resetSession o (Except.ok ()) st
        = ({ st with
             messages := []
             error := none
             lastDebug := none
             storage := st.storage.removeItem (messagesKey (st.sessionId.getD "")) },
           [TransportCall.resetTest (st.sessionId.getD "")]) := by
      unfold resetSession
      rw [if_neg (by simp [hT, hS])]
    refine ⟨heq, ?_, ?_⟩
    · rw [heq]
    · rw [heq]
      exact getItem_removeItem _ _

/-- C7 witness: a non-test controller is left unchanged with no call, and
a test-mode controller with session "sess-1" is emptied while keeping its
session id, with the persisted blob gone. -/
theorem C7_witness :
    resetSession exOptsPlain (Except.ok ()) exIdle = (exIdle, []) ∧
    (resetSession exOpts (Except.ok ()) exPending
       = ({ exPending with
            messages := []
            error := none
            lastDebug := none
            storage := exPending.storage.removeItem (messagesKey (exPending.sessionId.getD "")) },
          [TransportCall.resetTest (exPending.sessionId.getD "")]) ∧
     (resetSession exOpts (Except.ok ()) exPending).1.sessionId = exPending.sessionId ∧
     Storage.getItem (resetSession exOpts (Except.ok ()) exPending).1.storage
       (messagesKey (exPending.sessionId.getD "")) = none) :=
  ⟨(C7_reset_clears_but_keeps_session exOptsPlain exIdle (Except.ok ())).1 (Or.inl rfl),
   (C7_reset_clears_but_keeps_session exOpts exPending (Except.ok ())).2 rfl rfl⟩

/-- C10: resetSession is atomic on failure: when the reset endpoint
throws, the only state change is that the error becomes the thrown
error's message (or the fallback "Failed to reset session" for a
non-Error value); messages, last-debug, session id and the persisted
blob are all untouched, as the record update shows. -/
theorem C10_reset_failure_atomicity (o : UseChatOptions) (st : ChatState)
    (e : JsError) (m : String)
    (hT : o.testMode = true) (hS : optStrTruthy st.sessionId = true) :
    resetSession o (Except.error e) st
      = ({ st with error := some (e.displayMessage ("Failed to reset session")) },
         [TransportCall.resetTest (st.sessionId.getD "")]) ∧
    JsError.displayMessage (JsError.jsErr m) ("Failed to reset session") = m ∧
    JsError.displayMessage JsError.nonErrorValue ("Failed to reset session")
      = "Failed to reset session" := by
  refine ⟨?_, rfl, rfl⟩
  unfold resetSession
  rw [if_neg (by simp [hT, hS])]

/-- C10 witness: a failing reset with a thrown Error "boom" only sets the
error field. -/
theorem C10_witness :
    resetSession exOpts (Except.error (JsError.jsErr ("boom"))) exPending
      = ({ exPending with
           error := some ((JsError.jsErr ("boom")).displayMessage ("Failed to reset session")) },
         [TransportCall.resetTest (exPending.sessionId.getD "")]) ∧
    JsError.displayMessage (JsError.jsErr ("boom")) ("Failed to reset session") = "boom" ∧
    JsError.displayMessage JsError.nonErrorValue ("Failed to reset session")
      = "Failed to reset session" :=
  C10_reset_failure_atomicity exOpts exPending (JsError.jsErr ("boom")) ("boom") rfl rfl

/-- C8: startNewChat in test mode with a prior truthy session id removes
the old session's persisted blob and issues the backend cleanup call; the
cleanup outcome is completely discarded (the result does not depend on
it), so even a throwing cleanup leaves the run identical to a clean one:
the new session is still requested, its id stored in state and persisted
under the location's session key, and no error is surfaced. -/
theorem C8_cleanup_error_swallowed (o : UseChatOptions) (st : ChatState)
    (resetOutcome : Except JsError Unit) (session : TestSession)
    (hT : o.testMode = true) (hloc : ¬ o.locationId = "")
    (hS : optStrTruthy st.sessionId = true) :
    startNewChat o resetOutcome (Except.ok session) st
      = startNewChat o (Except.ok ()) (Except.ok session) st ∧
    (startNewChat o resetOutcome (Except.ok session) st).1.sessionId
      = some session.session_id ∧
    (startNewChat o resetOutcome (Except.ok session) st).1.error = none ∧
    (startNewChat o resetOutcome (Except.ok session) st).1.isLoading = false ∧
    Storage.getItem (startNewChat o resetOutcome (Except.ok session) st).1.storage
      (sessionKey o.locationId) = some (StoredValue.sessionRef session.session_id) ∧
    Storage.getItem (startNewChat o resetOutcome (Except.ok session) st).1.storage
      (messagesKey (st.sessionId.getD "")) = none ∧
    (startNewChat o resetOutcome (Except.ok session) st).2
      = [TransportCall.resetTest (st.sessionId.getD ""),
         TransportCall.createSession o.locationId] := by
  have hrun : startNewChat o resetOutcome (Except.ok session) st
      = ({ st with
           messages := []
           isLoading := false
           error := none
           lastDebug := none
           sessionId := some session.session_id
           storage := (st.storage.removeItem
               (messagesKey (st.sessionId.getD ""))).setItem
             (sessionKey o.locationId) (StoredValue.sessionRef session.session_id) },
         [TransportCall.resetTest (st.sessionId.getD ""),
          TransportCall.createSession o.locationId]) := by
    simp only [startNewChat]
    rw [if_neg (by simp [hT, hloc]), if_pos hS]
    rfl
  refine ⟨rfl, ?_, ?_, ?_, ?_, ?_, ?_⟩
  · rw [hrun]
  · rw [hrun]
  · rw [hrun]
  · rw [hrun]
    exact getItem_setItem_same _ _ _
  · rw [hrun]
    rw [getItem_setItem_other _ _ _ _ (sessionKey_ne_messagesKey _ _)]
    exact getItem_removeItem _ _
  · rw [hrun]

/-- C8 witness: a run from the pending state whose cleanup throws
"cleanup failed" still creates and persists session "sess-2" with no
error surfaced. -/
theorem C8_witness :
    startNewChat exOpts (Except.error (JsError.jsErr ("cleanup failed")))
        (Except.ok exSession) exPending
      = startNewChat exOpts (Except.ok ()) (Except.ok exSession) exPending ∧
    (startNewChat exOpts (Except.error (JsError.jsErr ("cleanup failed")))
        (Except.ok exSession) exPending).1.sessionId = some exSession.session_id ∧
    (startNewChat exOpts (Except.error (JsError.jsErr ("cleanup failed")))
        (Except.ok exSession) exPending).1.error = none ∧
    (startNewChat exOpts (Except.error (JsError.jsErr ("cleanup failed")))
        (Except.ok exSession) exPending).1.isLoading = false ∧
    Storage.getItem (startNewChat exOpts (Except.error (JsError.jsErr ("cleanup failed")))
        (Except.ok exSession) exPending).1.storage
      (sessionKey exOpts.locationId) = some (StoredValue.sessionRef exSession.session_id) ∧
    Storage.getItem (startNewChat exOpts (Except.error (JsError.jsErr ("cleanup failed")))
        (Except.ok exSession) exPending).1.storage
      (messagesKey (exPending.sessionId.getD "")) = none ∧
    (startNewChat exOpts (Except.error (JsError.jsErr ("cleanup failed")))
        (Except.ok exSession) exPending).2
      = [TransportCall.resetTest (exPending.sessionId.getD ""),
         TransportCall.createSession exOpts.locationId] :=
  C8_cleanup_error_swallowed exOpts exPending
    (Except.error (JsError.jsErr ("cleanup failed"))) exSession rfl (by decide) rfl

/-- C1 counterexample: the claim says a sendMessage call issued while an
earlier call is unresolved is a no-op with no network send.  In the code
there is no such guard: from the in-flight state exPending (isLoading
true, placeholder pending) a second call is accepted, issues its own
transport send and appends two more messages. -/
theorem C1_counterexample :
    exPending.isLoading = true ∧
    sendCalls exOpts ("hi") 5 6 7 8 exPending
      = [TransportCall.sendTest ("sess-1") ("hi")] ∧
    (sendMidState exOpts ("hi") 5 6 7 8 exPending).messages.length
      = exPending.messages.length + 2 := by
  refine ⟨rfl, ?_, ?_⟩ <;> decide

/-- C1 (amended): sendUserMessage has no pending-exchange guard: a call
issued while an earlier exchange is still unresolved (loading flag true)
is accepted whenever it passes the text, location and session/contact
validation; each such call performs exactly one network send of its own
and appends its own user message and placeholder pair. -/
theorem C1_no_single_flight_guard (o : UseChatOptions) (content : String)
    (t1 t2 t3 t4 : Nat) (st : ChatState)
    (hpending : st.isLoading = true)
    (htext : ¬ jsTrim content = "") (hloc : ¬ o.locationId = "")
    (htest : o.testMode = true → optStrTruthy st.sessionId = true)
    (hcontact : o.testMode = false → optStrTruthy o.contactId = true) :
    sendCalls o content t1 t2 t3 t4 st
      = [if o.testMode then TransportCall.sendTest (st.sessionId.getD "") content
         else TransportCall.sendContact (o.contactId.getD "") o.locationId content] ∧
    (sendMidState o content t1 t2 t3 t4 st).messages
      = st.messages ++ [mkUserMessage content t1 t2, mkLoadingMessage t3 t4] := by
  have hacc := sendStart_accepted o content t1 t2 t3 t4 st htext hloc htest hcontact
  constructor
  · simp only [sendCalls, hacc]
  · simp only [sendMidState, hacc, persistEffect_messages]

/-- C1 witness: a concrete second call from the in-flight state is
accepted, sends, and appends its pair. -/
theorem C1_witness :
    exPending.isLoading = true ∧
    (sendCalls exOpts ("hello") 11 12 13 14 exPending
       = [if exOpts.testMode then
            TransportCall.sendTest (exPending.sessionId.getD "") ("hello")
          else TransportCall.sendContact (exOpts.contactId.getD "")
            exOpts.locationId ("hello")] ∧
     (sendMidState exOpts ("hello") 11 12 13 14 exPending).messages
       = exPending.messages ++ [mkUserMessage ("hello") 11 12, mkLoadingMessage 13 14]) :=
  ⟨rfl, C1_no_single_flight_guard exOpts ("hello") 11 12 13 14 exPending rfl
    (by decide) (by decide) (by decide) (by decide)⟩

/-- C2 counterexample: the claim says the stored serialized message array
never contains a message with isLoading true.  One accepted send from the
quiescent state exIdle writes, at the commit right after the optimistic
append and before the transport call resolves, a blob that contains the
pending placeholder. -/
theorem C2_counterexample :
    storedBlobHasPending (sendMidState exOpts ("hi") 5 6 7 8 exIdle)
      ("sess-1") = true := by decide

/-- C2 (amended): the persistence effect runs after every commit in which
the message list changed, with no settledness condition: for any accepted
test-mode send the serialized list - including the pending placeholder -
is written under the session's messages key immediately after the
optimistic append, so while the exchange is in flight the stored blob
contains a message whose pending flag is true.  (After the exchange
settles the effect runs again and overwrites the blob with the settled
list.) -/
theorem C2_pending_message_persisted (o : UseChatOptions) (content : String)
    (t1 t2 t3 t4 : Nat) (st : ChatState)
    (htext : ¬ jsTrim content = "") (hloc : ¬ o.locationId = "")
    (hT : o.testMode = true) (hS : optStrTruthy st.sessionId = true) :
    (sendMidState o content t1 t2 t3 t4 st).storage
      = st.storage.setItem (messagesKey (st.sessionId.getD ""))
          (StoredValue.messagesBlob (serializeMessages
            (st.messages ++ [mkUserMessage content t1 t2, mkLoadingMessage t3 t4]))) ∧
    storedBlobHasPending (sendMidState o content t1 t2 t3 t4 st)
      (st.sessionId.getD "") = true := by
  have hacc := sendStart_accepted o content t1 t2 t3 t4 st htext hloc
    (fun _ => hS) (fun hF => absurd hT (by simp [hF]))
  have hmid : sendMidState o content t1 t2 t3 t4 st
      = persistEffect { st with
          error := none
          isLoading := true
          messages := st.messages ++ [mkUserMessage content t1 t2, mkLoadingMessage t3 t4] } := by
    simp only [sendMidState, hacc]
  have hpe : persistEffect { st with
          error := none
          isLoading := true
          messages := st.messages ++ [mkUserMessage content t1 t2, mkLoadingMessage t3 t4] }
      = { st with
          error := none
          isLoading := true
          messages := st.messages ++ [mkUserMessage content t1 t2, mkLoadingMessage t3 t4]
          storage := st.storage.setItem (messagesKey (st.sessionId.getD ""))
            (StoredValue.messagesBlob (serializeMessages
              (st.messages ++ [mkUserMessage content t1 t2, mkLoadingMessage t3 t4]))) } := by
    unfold persistEffect
    rw [if_pos ⟨hS, by simp⟩]
  rw [hmid, hpe]
  refine ⟨rfl, ?_⟩
  unfold storedBlobHasPending
  rw [show ({ st with
        error := none
        isLoading := true
        messages := st.messages ++ [mkUserMessage content t1 t2, mkLoadingMessage t3 t4]
        storage := st.storage.setItem (messagesKey (st.sessionId.getD ""))
          (StoredValue.messagesBlob (serializeMessages
            (st.messages ++ [mkUserMessage content t1 t2, mkLoadingMessage t3 t4]))) } : ChatState).storage
      = st.storage.setItem (messagesKey (st.sessionId.getD ""))
          (StoredValue.messagesBlob (serializeMessages
            (st.messages ++ [mkUserMessage content t1 t2, mkLoadingMessage t3 t4]))) from rfl]
  rw [getItem_setItem_same]
  simp [serializeMessages, mkLoadingMessage, mkUserMessage]

/-- C2 witness: the amended write fact at a concrete accepted send. -/
theorem C2_witness :
    (sendMidState exOpts ("hi") 5 6 7 8 exIdle).storage
      = exIdle.storage.setItem (messagesKey (exIdle.sessionId.getD ""))
          (StoredValue.messagesBlob (serializeMessages
            (exIdle.messages ++ [mkUserMessage ("hi") 5 6, mkLoadingMessage 7 8]))) ∧
    storedBlobHasPending (sendMidState exOpts ("hi") 5 6 7 8 exIdle)
      (exIdle.sessionId.getD "") = true :=
  C2_pending_message_persisted exOpts ("hi") 5 6 7 8 exIdle
    (by decide) (by decide) rfl rfl

/-- C3: every accepted sendMessage grows the list by exactly two entries
before the transport call resolves - the user message then the pending
assistant placeholder - and by zero net entries after resolution: the
settled list is the in-flight list rewritten entrywise by resolveEntry,
which only replaces entries matching the placeholder's id, so nothing is
appended and the length stays the in-flight length. -/
theorem C3_optimistic_pairing (o : UseChatOptions) (content : String)
    (t1 t2 t3 t4 : Nat) (outcome : SendOutcome) (st : ChatState)
    (htext : ¬ jsTrim content = "") (hloc : ¬ o.locationId = "")
    (htest : o.testMode = true → optStrTruthy st.sessionId = true)
    (hcontact : o.testMode = false → optStrTruthy o.contactId = true) :
    (sendMidState o content t1 t2 t3 t4 st).messages
      = st.messages ++ [mkUserMessage content t1 t2, mkLoadingMessage t3 t4] ∧
    (mkUserMessage content t1 t2).role = ChatRole.user ∧
    (mkLoadingMessage t3 t4).role = ChatRole.assistant ∧
    (mkLoadingMessage t3 t4).isLoading = true ∧
    (sendFinalState o content t1 t2 t3 t4 outcome st).messages
      = st.messages.map (resolveEntry (mkLoadingMessage t3 t4).id outcome)
        ++ [resolveEntry (mkLoadingMessage t3 t4).id outcome (mkUserMessage content t1 t2),
            resolveEntry (mkLoadingMessage t3 t4).id outcome (mkLoadingMessage t3 t4)] ∧
    (sendFinalState o content t1 t2 t3 t4 outcome st).messages.length
      = st.messages.length + 2 := by
  have hacc := sendStart_accepted o content t1 t2 t3 t4 st htext hloc htest hcontact
  have hfin : (sendFinalState o content t1 t2 t3 t4 outcome st).messages
      = (st.messages ++ [mkUserMessage content t1 t2, mkLoadingMessage t3 t4]).map
          (resolveEntry (mkLoadingMessage t3 t4).id outcome) := by
    simp only [sendFinalState, hacc, persistEffect_messages, resolve_messages]
  refine ⟨?_, rfl, rfl, rfl, ?_, ?_⟩
  · simp only [sendMidState, hacc, persistEffect_messages]
  · rw [hfin, List.map_append]
    simp
  · rw [hfin]
    simp

/-- C3 witness: an accepted send from the quiescent state at a concrete
successful outcome. -/
theorem C3_witness :
    (sendMidState exOpts ("hi") 21 22 23 24 exIdle).messages
      = exIdle.messages ++ [mkUserMessage ("hi") 21 22, mkLoadingMessage 23 24] ∧
    (mkUserMessage ("hi") 21 22).role = ChatRole.user ∧
    (mkLoadingMessage 23 24).role = ChatRole.assistant ∧
    (mkLoadingMessage 23 24).isLoading = true ∧
    (sendFinalState exOpts ("hi") 21 22 23 24 (SendOutcome.testSuccess exResponse) exIdle).messages
      = exIdle.messages.map (resolveEntry (mkLoadingMessage 23 24).id
          (SendOutcome.testSuccess exResponse))
        ++ [resolveEntry (mkLoadingMessage 23 24).id (SendOutcome.testSuccess exResponse)
              (mkUserMessage ("hi") 21 22),
            resolveEntry (mkLoadingMessage 23 24).id (SendOutcome.testSuccess exResponse)
              (mkLoadingMessage 23 24)] ∧
    (sendFinalState exOpts ("hi") 21 22 23 24 (SendOutcome.testSuccess exResponse) exIdle).messages.length
      = exIdle.messages.length + 2 :=
  C3_optimistic_pairing exOpts ("hi") 21 22 23 24 (SendOutcome.testSuccess exResponse) exIdle
    (by decide) (by decide) (by decide) (by decide)

/-- Helper for C4 and C5: the last entry of the settled list is the
resolved placeholder. -/
theorem sendFinal_getLast (o : UseChatOptions) (content : String)
    (t1 t2 t3 t4 : Nat) (outcome : SendOutcome) (st : ChatState)
    (htext : ¬ jsTrim content = "") (hloc : ¬ o.locationId = "")
    (htest : o.testMode = true → optStrTruthy st.sessionId = true)
    (hcontact : o.testMode = false → optStrTruthy o.contactId = true) :
    (sendFinalState o content t1 t2 t3 t4 outcome st).messages.getLast?
      = some (resolveEntry (mkLoadingMessage t3 t4).id outcome (mkLoadingMessage t3 t4)) := by
  have hacc := sendStart_accepted o content t1 t2 t3 t4 st htext hloc htest hcontact
  have hfin : (sendFinalState o content t1 t2 t3 t4 outcome st).messages
      = (st.messages ++ [mkUserMessage content t1 t2, mkLoadingMessage t3 t4]).map
          (resolveEntry (mkLoadingMessage t3 t4).id outcome) := by
    simp only [sendFinalState, hacc, persistEffect_messages, resolve_messages]
  rw [hfin, List.map_append]
  simp only [List.map_cons, List.map_nil]
  exact getLast?_append_pair _ _ _

/-- C4: when an accepted send's transport call succeeds, the placeholder
(the last entry of the settled list) gets the returned reply exactly when
the reply is non-empty and the fixed acknowledgement "I understand. Let
me help you with that." when the reply is empty or null (replyOrAck);
its pending flag is cleared; in test mode the returned debug info is
attached to the resolved message and recorded as the session-wide
last-debug snapshot (the contact endpoint returns no debug object and
last-debug is unchanged there). -/
theorem C4_success_resolution (o : UseChatOptions) (content : String)
    (t1 t2 t3 t4 : Nat) (st : ChatState) (r : TestMessageResponse)
    (rc : MessageResponse) (s : String)
    (htext : ¬ jsTrim content = "") (hloc : ¬ o.locationId = "")
    (htest : o.testMode = true → optStrTruthy st.sessionId = true)
    (hcontact : o.testMode = false → optStrTruthy o.contactId = true)
    (hs : ¬ s = "") :
    (sendFinalState o content t1 t2 t3 t4 (SendOutcome.testSuccess r) st).messages.getLast?
      = some { mkLoadingMessage t3 t4 with
               content := replyOrAck r.reply
               isLoading := false
               debug := some r.debug } ∧
    (sendFinalState o content t1 t2 t3 t4 (SendOutcome.testSuccess r) st).lastDebug
      = some r.debug ∧
    (sendFinalState o content t1 t2 t3 t4 (SendOutcome.contactSuccess rc) st).messages.getLast?
      = some { mkLoadingMessage t3 t4 with
               content := replyOrAck rc.reply
               isLoading := false } ∧
    (sendFinalState o content t1 t2 t3 t4 (SendOutcome.contactSuccess rc) st).lastDebug
      = st.lastDebug ∧
    replyOrAck (some s) = s ∧
    replyOrAck (some ("")) = "I understand. Let me help you with that." ∧
    replyOrAck none = "I understand. Let me help you with that." := by
  have hacc := sendStart_accepted o content t1 t2 t3 t4 st htext hloc htest hcontact
  refine ⟨?_, ?_, ?_, ?_, ?_, rfl, rfl⟩
  · rw [sendFinal_getLast o content t1 t2 t3 t4 (SendOutcome.testSuccess r) st
      htext hloc htest hcontact]
    simp [resolveEntry]
  · simp only [sendFinalState, hacc, persistEffect_lastDebug]
    rfl
  · rw [sendFinal_getLast o content t1 t2 t3 t4 (SendOutcome.contactSuccess rc) st
      htext hloc htest hcontact]
    simp [resolveEntry]
  · simp only [sendFinalState, hacc, persistEffect_lastDebug,
      resolve_lastDebug_contact]
  · simp only [replyOrAck]
    rw [if_neg hs]

/-- C4 witness: spec Scenario C - the reply "Hello!" with confidence 0.92
resolves the placeholder to exactly "Hello!" with isLoading false, debug
attached, and last-debug recorded. -/
theorem C4_witness :
    (sendFinalState exOpts ("hi") 31 32 33 34 (SendOutcome.testSuccess exResponse) exIdle).messages.getLast?
      = some { mkLoadingMessage 33 34 with
               content := replyOrAck exResponse.reply
               isLoading := false
               debug := some exResponse.debug } ∧
    (sendFinalState exOpts ("hi") 31 32 33 34 (SendOutcome.testSuccess exResponse) exIdle).lastDebug
      = some exResponse.debug ∧
    (sendFinalState exOpts ("hi") 31 32 33 34 (SendOutcome.contactSuccess exContactResponse) exIdle).messages.getLast?
      = some { mkLoadingMessage 33 34 with
               content := replyOrAck exContactResponse.reply
               isLoading := false } ∧
    (sendFinalState exOpts ("hi") 31 32 33 34 (SendOutcome.contactSuccess exContactResponse) exIdle).lastDebug
      = exIdle.lastDebug ∧
    replyOrAck (some ("Hello!")) = "Hello!" ∧
    replyOrAck (some ("")) = "I understand. Let me help you with that." ∧
    replyOrAck none = "I understand. Let me help you with that." :=
  C4_success_resolution exOpts ("hi") 31 32 33 34 exIdle exResponse exContactResponse
    ("Hello!") (by decide) (by decide) (by decide) (by decide) (by decide)

/-- C5: when an accepted send's transport call throws, the placeholder
(the last entry of the settled list) becomes the fixed apology "Sorry, I
encountered an error. Please try again." with its pending flag cleared;
the controller error becomes the thrown error's message (or the fallback
"Something went wrong" for a non-Error value); the error is absorbed
(sendUserMessageResolve is total - the catch never rethrows); and the
loading flag is cleared at the end. -/
theorem C5_failure_resolution (o : UseChatOptions) (content : String)
    (t1 t2 t3 t4 : Nat) (st : ChatState) (e : JsError) (m : String)
    (htext : ¬ jsTrim content = "") (hloc : ¬ o.locationId = "")
    (htest : o.testMode = true → optStrTruthy st.sessionId = true)
    (hcontact : o.testMode = false → optStrTruthy o.contactId = true) :
    (sendFinalState o content t1 t2 t3 t4 (SendOutcome.failure e) st).messages.getLast?
      = some { mkLoadingMessage t3 t4 with
               content := "Sorry, I encountered an error. Please try again."
               isLoading := false } ∧
    (sendFinalState o content t1 t2 t3 t4 (SendOutcome.failure e) st).error
      = some (e.displayMessage ("Something went wrong")) ∧
    JsError.displayMessage (JsError.jsErr m) ("Something went wrong") = m ∧
    JsError.displayMessage JsError.nonErrorValue ("Something went wrong")
      = "Something went wrong" ∧
    (sendFinalState o content t1 t2 t3 t4 (SendOutcome.failure e) st).isLoading = false := by
  have hacc := sendStart_accepted o content t1 t2 t3 t4 st htext hloc htest hcontact
  refine ⟨?_, ?_, rfl, rfl, ?_⟩
  · rw [sendFinal_getLast o content t1 t2 t3 t4 (SendOutcome.failure e) st
      htext hloc htest hcontact]
    simp [resolveEntry]
  · simp only [sendFinalState, hacc, persistEffect_error]
    rfl
  · simp only [sendFinalState, hacc, persistEffect_isLoading, resolve_isLoading]

/-- C5 witness: spec Scenario D - a send failing with the network error
"timeout" resolves the placeholder to the apology string and sets the
controller error to exactly "timeout". -/
theorem C5_witness :
    (sendFinalState exOpts ("hi") 41 42 43 44
        (SendOutcome.failure (JsError.jsErr ("timeout"))) exIdle).messages.getLast?
      = some { mkLoadingMessage 43 44 with
               content := "Sorry, I encountered an error. Please try again."
               isLoading := false } ∧
    (sendFinalState exOpts ("hi") 41 42 43 44
        (SendOutcome.failure (JsError.jsErr ("timeout"))) exIdle).error
      = some ((JsError.jsErr ("timeout")).displayMessage ("Something went wrong")) ∧
    JsError.displayMessage (JsError.jsErr ("timeout")) ("Something went wrong") = "timeout" ∧
    JsError.displayMessage JsError.nonErrorValue ("Something went wrong")
      = "Something went wrong" ∧
    (sendFinalState exOpts ("hi") 41 42 43 44
        (SendOutcome.failure (JsError.jsErr ("timeout"))) exIdle).isLoading = false :=
  C5_failure_resolution exOpts ("hi") 41 42 43 44 exIdle (JsError.jsErr ("timeout"))
    ("timeout") (by decide) (by decide) (by decide) (by decide)
